import Mathlib

/-!
Verification of the document RAG pipeline: vector-store insertion and
document-scoped similarity search, threshold-filtered retrieval, the
no-context answer contract, ownership validation, MCQ output validation,
ingestion status transitions, text chunking edge cases, and document-type
detection / text decoding.

Python classes whose methods are pure given their collaborators are
embedded as Lean functions parameterised by those collaborators
(the embedding model, the similarity metric, the generative model, the
document registry and the vector-index table are passed explicitly).
-/

/-- A JSON-like metadata value as stored in a record's `metadata` map. -/
inductive MetaValue where
  | str (v : String)
  | num (v : Int)
  | null
deriving DecidableEq, Repr

/-- A Python dict with string keys, modelled as an association list in which
the FIRST binding of a key is its value and keys are unique by construction
of `dictInsert`. -/
abbrev Metadata := List (String × MetaValue)

/-- Lookup in a metadata dict: first binding wins (bindings are unique). -/
def metaLookup (d : Metadata) (k : String) : Option MetaValue :=
  match d with
  | [] => none
  | (k', v) :: rest => if k' = k then some v else metaLookup rest k

/-- Python dict assignment `d[k] = v`: replaces an existing binding of `k`
in place, otherwise appends the new binding at the end (insertion order). -/
def dictInsert (d : Metadata) (k : String) (v : MetaValue) : Metadata :=
  match d with
  | [] => [(k, v)]
  | (k', v') :: rest =>
    if k' = k then (k', v) :: rest else (k', v') :: dictInsert rest k v

/-- Python dict-literal merge `{**base, **extra}`: the bindings of `extra`
are assigned one by one on top of `base`, so a key of `extra` overrides an
equal key of `base`. -/
def dictMerge (base extra : Metadata) : Metadata :=
  extra.foldl (fun d kv => dictInsert d kv.1 kv.2) base

/-- A row of the `document_embeddings` table
(`app/db/vector_store.py`, `EmbeddingRecord`); the database-generated `id`
column is not modelled. UUIDs are modelled as strings, embedding vectors as
rational-number lists. -/
structure EmbeddingRecord where
  document_id : String
  user_id : String
  content : String
  embedding : List Rat
  metadata : Metadata
deriving DecidableEq, Repr

/-- A similarity search result (`app/db/vector_store.py`, `SearchResult`). -/
structure SearchResult where
  content : String
  metadata : Metadata
  similarity : Rat
deriving DecidableEq, Repr

/-- `SupabaseVectorStore.add_embeddings` (`app/db/vector_store.py`).
Checks that `chunks` and `embeddings` have the same length (raising
`ValueError` otherwise, modelled as `.error`), then builds one record per
chunk whose metadata is the dict literal
`{"chunk_index": i, "document_id": ..., "user_id": ..., **(metadata or {})}`.
Returns the records themselves in place of their database-generated ids. -/
def SupabaseVectorStore.add_embeddings (document_id user_id : String)
    (chunks : List String) (embeddings : List (List Rat))
    (metadata : Metadata) : Except String (List EmbeddingRecord) :=
  if chunks.length ≠ embeddings.length then
    .error "Chunks and embeddings must have same length."
  else
    .ok <| (chunks.zip embeddings).enum.map fun (i, chunk, embedding) =>
      { document_id := document_id
        user_id := user_id
        content := chunk
        embedding := embedding
        metadata := dictMerge
          [("chunk_index", .num i), ("document_id", .str document_id),
           ("user_id", .str user_id)] metadata }

/-- Modelled from the spec: the Supabase RPC `match_document_embeddings`
called by `SupabaseVectorStore.similarity_search` is a pgvector SQL function
that is not part of the checked-in sources. Per §4.4 of the spec it "must
filter by document scope server-side … and return at most `k` results
ordered by descending similarity". The cosine-similarity metric computed by
pgvector is passed in abstractly as `sim`. -/
def match_document_embeddings (sim : List Rat → List Rat → Rat)
    (table : List EmbeddingRecord) (query_embedding : List Rat)
    (filter_document_id : String) (match_count : Nat) : List SearchResult :=
  let inScope := table.filter fun r => r.document_id = filter_document_id
  let ranked := inScope.mergeSort fun a b =>
    sim query_embedding b.embedding ≤ sim query_embedding a.embedding
  (ranked.take match_count).map fun r =>
    { content := r.content
      metadata := r.metadata
      similarity := sim query_embedding r.embedding }

/-- `SupabaseVectorStore.similarity_search` (`app/db/vector_store.py`):
invokes the `match_document_embeddings` RPC and wraps each returned row
as a `SearchResult`. In the model the RPC already yields the rows
`(content, metadata, similarity)`, so the wrapping is the identity. -/
def SupabaseVectorStore.similarity_search (sim : List Rat → List Rat → Rat)
    (table : List EmbeddingRecord) (query_embedding : List Rat)
    (document_id : String) (k : Nat) : List SearchResult :=
  match_document_embeddings sim table query_embedding document_id k

/-- The fixed no-context sentence
(`RAGChain.NO_CONTEXT_RESPONSE`, `app/chains/rag_chain.py`). -/
def RAGChain.NO_CONTEXT_RESPONSE : String :=
  "I don't have enough information in the document to answer this question."

/-- Minimum similarity threshold for relevant results
(`MIN_SIMILARITY_THRESHOLD = 0.3` in both `rag_chain.py` and
`mcq_chain.py`). -/
def MIN_SIMILARITY_THRESHOLD : Rat := 3 / 10

/-- `RAGChain.retrieve` (`app/chains/rag_chain.py`): embed the query, run the
document-scoped similarity search with `k = retrieval_k`, and keep the
results whose similarity is at least `MIN_SIMILARITY_THRESHOLD`. The
embedding service is the abstract parameter `embed`, the similarity metric
`sim`, the vector-store table `table`. -/
def RAGChain.retrieve (embed : String → List Rat)
    (sim : List Rat → List Rat → Rat) (table : List EmbeddingRecord)
    (retrieval_k : Nat) (query : String) (document_id : String) :
    List SearchResult :=
  let query_embedding := embed query
  let results :=
    SupabaseVectorStore.similarity_search sim table query_embedding
      document_id retrieval_k
  results.filter fun r => MIN_SIMILARITY_THRESHOLD ≤ r.similarity

/-- `RAGChain._format_context` (`app/chains/rag_chain.py`): number the
results from 1 and join `[Source i]\n<content>` blocks with blank lines. -/
def RAGChain.format_context (search_results : List SearchResult) : String :=
  if search_results.isEmpty then ""
  else
    String.intercalate "\n\n" <| search_results.enum.map fun (i, result) =>
      "[Source " ++ toString (i + 1) ++ "]\n" ++ result.content

/-- `RAGChain._format_sources` (`app/chains/rag_chain.py`): project each
result to its `(content, metadata)` source dict. -/
def RAGChain.format_sources (search_results : List SearchResult) :
    List (String × Metadata) :=
  search_results.map fun result => (result.content, result.metadata)

/-- `RAGResponse` (`app/chains/rag_chain.py`). -/
structure RAGResponse where
  answer : String
  sources : List (String × Metadata)
  has_context : Bool
deriving DecidableEq, Repr

/-- `RAGChain.invoke` (`app/chains/rag_chain.py`). The generative model
(prompt template → LLM → output parser) is the abstract parameter
`llm context question`. The returned flag records whether the LLM chain was
invoked, so that the no-LLM-call contract of the empty-retrieval path is
expressible. -/
def RAGChain.invoke (embed : String → List Rat)
    (sim : List Rat → List Rat → Rat) (llm : String → String → String)
    (table : List EmbeddingRecord) (retrieval_k : Nat)
    (question : String) (document_id : String) : RAGResponse × Bool :=
  let search_results := RAGChain.retrieve embed sim table retrieval_k
    question document_id
  if search_results.isEmpty then
    ({ answer := RAGChain.NO_CONTEXT_RESPONSE
       sources := []
       has_context := false }, false)
  else
    let context := RAGChain.format_context search_results
    let answer := llm context question
    ({ answer := answer
       sources := RAGChain.format_sources search_results
       has_context := true }, true)

/-- A row of the `user_docs` registry table, as selected by the services. -/
structure UserDoc where
  id : String
  user_id : String
  file_url : Option String
deriving DecidableEq, Repr

/-- The error kinds raised by the chat / MCQ services:
`DocumentNotFoundError`, `AuthorizationError` and `MCQGenerationError`
(`app/services/chat_service.py`, `app/services/mcq_service.py`). -/
inductive ServiceError where
  | documentNotFound (msg : String)
  | authorizationError (msg : String)
  | generationError (msg : String)
deriving DecidableEq, Repr

/-- `ChatService.validate_document_ownership` / the identical
`MCQService.validate_document_ownership`: select the `user_docs` rows with
the given id; empty ⇒ `DocumentNotFoundError`; first row with a different
`user_id` ⇒ `AuthorizationError`; otherwise return the document row. -/
def validate_document_ownership (registry : List UserDoc)
    (document_id user_id : String) : Except ServiceError UserDoc :=
  let rows := registry.filter fun d => d.id = document_id
  match rows with
  | [] => .error (.documentNotFound ("Document " ++ document_id ++ " not found"))
  | document :: _ =>
    if document.user_id ≠ user_id then
      .error (.authorizationError ("User " ++ user_id ++
        " is not authorized to access document " ++ document_id))
    else
      .ok document

/-- `ChatResponse` (`app/services/chat_service.py`); each source reference
is its `(content, metadata)` pair. -/
structure ChatResponse where
  answer : String
  sources : List (String × Metadata)
  document_id : String
  has_context : Bool
deriving DecidableEq, Repr

/-- `ChatService.chat` (`app/services/chat_service.py`): validate ownership,
then invoke the RAG chain and package its response. The second component
records whether the RAG chain (retrieval + generation work) was invoked. -/
def ChatService.chat (registry : List UserDoc) (embed : String → List Rat)
    (sim : List Rat → List Rat → Rat) (llm : String → String → String)
    (table : List EmbeddingRecord) (retrieval_k : Nat)
    (user_id document_id message : String) :
    Except ServiceError ChatResponse × Bool :=
  match validate_document_ownership registry document_id user_id with
  | .error e => (.error e, false)
  | .ok _ =>
    let rag_response := (RAGChain.invoke embed sim llm table retrieval_k
      message document_id).1
    (.ok { answer := rag_response.answer
           sources := rag_response.sources
           document_id := document_id
           has_context := rag_response.has_context }, true)

/-- `DifficultyLevel` (`app/models/mcq_schemas.py`). -/
inductive DifficultyLevel where
  | easy
  | medium
  | hard
deriving DecidableEq, Repr

/-- `DifficultyLevel.value`: the string value of the Python enum member. -/
def DifficultyLevel.value : DifficultyLevel → String
  | .easy => "easy"
  | .medium => "medium"
  | .hard => "hard"

/-- `MCQQuestion` (`app/models/mcq_schemas.py`): question text, answer
options, zero-based correct-answer index, explanation. The pydantic
field-level validation performed at construction time is not modelled; in
this development `MCQQuestion` values are built only from candidates that
passed the `_parse_llm_output` checks. -/
structure MCQQuestion where
  question : String
  options : List String
  correct_answer_index : Int
  explanation : String
deriving DecidableEq, Repr

/-- A candidate entry of the parsed `questions` array in
`MCQChain._parse_llm_output`. Each of the four expected fields is either
absent (`none`) or present with its expected type, as produced by the
generation prompt's JSON schema. -/
structure RawCandidate where
  question : Option String
  options : Option (List String)
  correct_answer_index : Option Int
  explanation : Option String
deriving DecidableEq, Repr

/-- The per-candidate validation loop body of `MCQChain._parse_llm_output`
(`app/chains/mcq_chain.py`): skip the candidate (`continue`) when one of
the four required fields is missing, when it does not have exactly 4
options, or when its correct-answer index is outside `[0, 3]`; otherwise
build the `MCQQuestion`. -/
def MCQChain.validate_candidate (q_data : RawCandidate) : Option MCQQuestion :=
  match q_data.question, q_data.options, q_data.correct_answer_index,
      q_data.explanation with
  | some question, some options, some correct_answer_index, some explanation =>
    if options.length ≠ 4 then none
    else if ¬(0 ≤ correct_answer_index ∧ correct_answer_index ≤ 3) then none
    else some { question := question
                options := options
                correct_answer_index := correct_answer_index
                explanation := explanation }
  | _, _, _, _ => none

/-- The possible shapes of the raw LLM output as seen by
`MCQChain._parse_llm_output` after the regex/JSON front end: no `{...}`
span at all, a span that fails `json.loads`, a parsed object without a
`questions` key, or a parsed object with a `questions` array of candidate
objects. -/
inductive LlmQuizOutput where
  | noJson
  | badJson
  | missingQuestions
  | questions (qs : List RawCandidate)
deriving DecidableEq, Repr

/-- `MCQChain._parse_llm_output` (`app/chains/mcq_chain.py`): raise
`MCQGenerationError` when no JSON is found, when JSON parsing fails, or
when the `questions` key is missing; otherwise validate the candidates one
by one, silently dropping each malformed one. -/
def MCQChain.parse_llm_output : LlmQuizOutput →
    Except String (List MCQQuestion)
  | .noJson => .error "No JSON found in LLM output"
  | .badJson => .error "Failed to parse LLM JSON output"
  | .missingQuestions => .error "Missing 'questions' key in LLM output"
  | .questions qs => .ok (qs.filterMap MCQChain.validate_candidate)

/-- `MCQChain.RETRIEVAL_K = 6` (`app/chains/mcq_chain.py`). -/
def MCQChain.RETRIEVAL_K : Nat := 6

/-- `MCQChain.retrieve` (`app/chains/mcq_chain.py`): embed the fixed generic
query, search the document's index with `k = max(RETRIEVAL_K,
num_questions * 2)`, and keep results at or above the similarity
threshold. -/
def MCQChain.retrieve (embed : String → List Rat)
    (sim : List Rat → List Rat → Rat) (table : List EmbeddingRecord)
    (document_id : String) (num_questions : Nat) : List SearchResult :=
  let query := "key concepts, facts, and important information"
  let query_embedding := embed query
  let k := max MCQChain.RETRIEVAL_K (num_questions * 2)
  let results :=
    SupabaseVectorStore.similarity_search sim table query_embedding
      document_id k
  results.filter fun r => MIN_SIMILARITY_THRESHOLD ≤ r.similarity

/-- `MCQChain._format_context` (`app/chains/mcq_chain.py`): like the RAG
context but with `[Section i]` labels. -/
def MCQChain.format_context (search_results : List SearchResult) : String :=
  if search_results.isEmpty then ""
  else
    String.intercalate "\n\n" <| search_results.enum.map fun (i, result) =>
      "[Section " ++ toString (i + 1) ++ "]\n" ++ result.content

/-- `MCQGenerationResult` (`app/chains/mcq_chain.py`). -/
structure MCQGenerationResult where
  questions : List MCQQuestion
  has_context : Bool
deriving DecidableEq, Repr

/-- `MCQChain.invoke` (`app/chains/mcq_chain.py`): retrieve context; if
empty, succeed with no questions and `has_context = false`; otherwise
invoke the generative chain (abstract parameter `llm`) on the formatted
context and parse its output. `MCQGenerationError` is modelled as
`.error`. -/
def MCQChain.invoke (embed : String → List Rat)
    (sim : List Rat → List Rat → Rat)
    (llm : String → Nat → DifficultyLevel → LlmQuizOutput)
    (table : List EmbeddingRecord) (document_id : String)
    (num_questions : Nat) (difficulty : DifficultyLevel) :
    Except String MCQGenerationResult :=
  let search_results := MCQChain.retrieve embed sim table document_id
    num_questions
  if search_results.isEmpty then
    .ok { questions := [], has_context := false }
  else
    let context := MCQChain.format_context search_results
    match MCQChain.parse_llm_output (llm context num_questions difficulty) with
    | .error e => .error e
    | .ok questions => .ok { questions := questions, has_context := true }

/-- `MCQResponse` (`app/models/mcq_schemas.py`). -/
structure MCQResponse where
  questions : List MCQQuestion
  document_id : String
  difficulty : String
  generated_count : Nat
deriving DecidableEq, Repr

/-- `MCQService.generate_mcqs` (`app/services/mcq_service.py`): validate
ownership, invoke the MCQ chain, and package the response with
`generated_count = len(result.questions)`. The second component records
whether the MCQ chain (retrieval + generation work) was invoked. -/
def MCQService.generate_mcqs (registry : List UserDoc)
    (embed : String → List Rat) (sim : List Rat → List Rat → Rat)
    (llm : String → Nat → DifficultyLevel → LlmQuizOutput)
    (table : List EmbeddingRecord) (user_id document_id : String)
    (num_questions : Nat) (difficulty : DifficultyLevel) :
    Except ServiceError MCQResponse × Bool :=
  match validate_document_ownership registry document_id user_id with
  | .error e => (.error e, false)
  | .ok _ =>
    match MCQChain.invoke embed sim llm table document_id num_questions
        difficulty with
    | .error e => (.error (.generationError e), true)
    | .ok result =>
      (.ok { questions := result.questions
             document_id := document_id
             difficulty := difficulty.value
             generated_count := result.questions.length }, true)

/-- A byte of downloaded document content. -/
abbrev Byte := Fin 256

/-- `DocumentType` (`app/services/document_processor.py`). -/
inductive DocumentType where
  | PDF
  | TXT
  | UNKNOWN
deriving DecidableEq, Repr

/-- `DocumentType.value`: the string value of the Python enum member. -/
def DocumentType.value : DocumentType → String
  | .PDF => "pdf"
  | .TXT => "txt"
  | .UNKNOWN => "unknown"

/-- A UTF-8 continuation byte (`0x80 ≤ b ≤ 0xBF`). -/
def utf8Cont (b : Byte) : Bool := decide (0x80 ≤ b.val ∧ b.val ≤ 0xBF)

/-- UTF-8 leading-byte classification: for a valid multi-byte leading byte,
the number of continuation bytes and the allowed range of the first
continuation byte (the restricted first-continuation ranges exclude
overlong encodings, surrogates and code points above `0x10FFFF`, exactly
the sequences Python's strict `bytes.decode("utf-8")` rejects). -/
def utf8Hdr (b : Nat) : Option (Nat × Nat × Nat) :=
  if 0xC2 ≤ b ∧ b ≤ 0xDF then some (1, 0x80, 0xBF)
  else if b = 0xE0 then some (2, 0xA0, 0xBF)
  else if 0xE1 ≤ b ∧ b ≤ 0xEC then some (2, 0x80, 0xBF)
  else if b = 0xED then some (2, 0x80, 0x9F)
  else if 0xEE ≤ b ∧ b ≤ 0xEF then some (2, 0x80, 0xBF)
  else if b = 0xF0 then some (3, 0x90, 0xBF)
  else if 0xF1 ≤ b ∧ b ≤ 0xF3 then some (3, 0x80, 0xBF)
  else if b = 0xF4 then some (3, 0x80, 0x8F)
  else none

/-- Strict UTF-8 decoding of a byte sequence, as performed by Python's
`bytes.decode("utf-8")`: `none` exactly when the sequence is not valid
UTF-8. -/
def utf8DecodeChars : List Byte → Option (List Char)
  | [] => some []
  | b :: rest =>
    if b.val ≤ 0x7F then
      (utf8DecodeChars rest).map (Char.ofNat b.val :: ·)
    else
      match utf8Hdr b.val with
      | none => none
      | some (n, lo, hi) =>
        match n, rest with
        | 1, c1 :: rest1 =>
          if lo ≤ c1.val ∧ c1.val ≤ hi then
            (utf8DecodeChars rest1).map
              (Char.ofNat ((b.val - 0xC0) * 0x40 + (c1.val - 0x80)) :: ·)
          else none
        | 2, c1 :: c2 :: rest2 =>
          if (lo ≤ c1.val ∧ c1.val ≤ hi) ∧ utf8Cont c2 then
            (utf8DecodeChars rest2).map
              (Char.ofNat ((b.val - 0xE0) * 0x1000 +
                (c1.val - 0x80) * 0x40 + (c2.val - 0x80)) :: ·)
          else none
        | 3, c1 :: c2 :: c3 :: rest3 =>
          if (lo ≤ c1.val ∧ c1.val ≤ hi) ∧ utf8Cont c2 ∧ utf8Cont c3 then
            (utf8DecodeChars rest3).map
              (Char.ofNat ((b.val - 0xF0) * 0x40000 +
                (c1.val - 0x80) * 0x1000 + (c2.val - 0x80) * 0x40 +
                (c3.val - 0x80)) :: ·)
          else none
        | _, _ => none

/-- The PDF magic bytes `b"%PDF"`. -/
def pdfMagic : List Byte := [⟨0x25, by decide⟩, ⟨0x50, by decide⟩,
  ⟨0x44, by decide⟩, ⟨0x46, by decide⟩]

/-- `DocumentProcessor.detect_document_type`
(`app/services/document_processor.py`): lowercased URL extension first
(`.pdf`, then `.txt`), then the `content[:4] == b"%PDF"` magic-byte check,
then a trial strict UTF-8 decode, else `UNKNOWN`. -/
def DocumentProcessor.detect_document_type (url : String)
    (content : List Byte) : DocumentType :=
  let url_lower := url.toLower
  if url_lower.endsWith ".pdf" then .PDF
  else if url_lower.endsWith ".txt" then .TXT
  else if content.take 4 = pdfMagic then .PDF
  else if (utf8DecodeChars content).isSome then .TXT
  else .UNKNOWN

/-- The URL file-extension detection step as worded by the spec: the
extension suffix either indicates a known type or nothing. -/
def extensionDocumentType (url : String) : Option DocumentType :=
  if url.toLower.endsWith ".pdf" then some .PDF
  else if url.toLower.endsWith ".txt" then some .TXT
  else none

/-- Document-type detection as worded by the spec (§4.2): "file-extension
suffix on the URL, then content magic bytes (`%PDF` header ⇒ pdf), then
attempt UTF-8 decode ⇒ text, else `unknown`". -/
def detectDocumentTypeSpec (url : String) (content : List Byte) :
    DocumentType :=
  match extensionDocumentType url with
  | some t => t
  | none =>
    if pdfMagic.isPrefixOf content then .PDF
    else if (utf8DecodeChars content).isSome then .TXT
    else .UNKNOWN

/-- Python's `bytes.decode("latin-1")`: maps byte `i` to code point `U+i`.
Total — every byte sequence decodes. -/
def latin1Decode (content : List Byte) : String :=
  ⟨content.map fun b => Char.ofNat b.val⟩

/-- The `content.decode("latin-1")` call inside
`DocumentProcessor.extract_text_from_txt`, kept at `Option` type to mirror
the `try/except` around it: `none` would mean the decode raised. -/
def latin1DecodeOpt (content : List Byte) : Option String :=
  some (latin1Decode content)

/-- `DocumentProcessor.extract_text_from_txt`
(`app/services/document_processor.py`): try a strict UTF-8 decode; on
`UnicodeDecodeError` fall back to Latin-1; if that also raised, raise
`TextExtractionError` (modelled as `.error`). -/
def DocumentProcessor.extract_text_from_txt (content : List Byte) :
    Except String String :=
  match utf8DecodeChars content with
  | some cs => .ok ⟨cs⟩
  | none =>
    match latin1DecodeOpt content with
    | some s => .ok s
    | none => .error "Failed to decode text file"

/-- `TextChunk` (`app/services/text_chunker.py`). -/
structure TextChunk where
  content : String
  index : Nat
  start_char : Option Nat := none
  end_char : Option Nat := none
deriving DecidableEq, Repr

/-- A Python whitespace character as recognised by `str.strip()` /
`str.isspace()` in the ASCII range. -/
def pyIsSpace (c : Char) : Bool :=
  c = ' ' ∨ c = '\t' ∨ c = '\n' ∨ c = '\x0d' ∨ c = '\x0b' ∨ c = '\x0c'

/-- Python's `str.strip()`: remove leading and trailing whitespace. -/
def pyStrip (s : String) : String :=
  ⟨((s.toList.dropWhile pyIsSpace).reverse.dropWhile pyIsSpace).reverse⟩

/-- `TextChunker.chunk_text` (`app/services/text_chunker.py`): return `[]`
for empty or stripped-empty text, otherwise split with the configured
`RecursiveCharacterTextSplitter` (the external LangChain splitter, passed
in abstractly as `split`) and wrap each piece with its index. -/
def TextChunker.chunk_text (split : String → List String) (text : String) :
    List TextChunk :=
  if text.isEmpty || (pyStrip text).isEmpty then []
  else
    (split text).enum.map fun (i, chunk) => { content := chunk, index := i }

/-- `TextChunker.chunk_text_raw` (`app/services/text_chunker.py`): same
empty-input guard, returning the raw chunk strings. -/
def TextChunker.chunk_text_raw (split : String → List String)
    (text : String) : List String :=
  if text.isEmpty || (pyStrip text).isEmpty then []
  else split text

/-- `DocumentStatus` (`app/services/document_service.py`). -/
inductive DocumentStatus where
  | PENDING
  | PROCESSING
  | READY
  | FAILED
deriving DecidableEq, Repr

/-- `ProcessingResult` (`app/services/document_service.py`). -/
structure ProcessingResult where
  document_id : String
  status : DocumentStatus
  chunks_created : Nat
  error_message : Option String := none
deriving DecidableEq, Repr

/-- A call to `DocumentService.update_document_status`: the document id, the
new status, and the error message when one was passed (the method only
writes the `error_message` column for a truthy message). -/
abbrev StatusUpdate := String × DocumentStatus × Option String

/-- `ExtractedDocument` (`app/services/document_processor.py`). -/
structure ExtractedDocument where
  document_id : String
  content : String
  document_type : DocumentType
  page_count : Option Nat := none
deriving DecidableEq, Repr

/-- The two anticipated failure kinds of
`DocumentProcessor.process_document_from_url`: `DocumentDownloadError` and
`TextExtractionError`, each carrying its `str(e)` message. -/
inductive FetchError where
  | download (msg : String)
  | extraction (msg : String)
deriving DecidableEq, Repr

/-- `str(e)` for a fetch error: its message. -/
def FetchError.message : FetchError → String
  | .download msg => msg
  | .extraction msg => msg

/-- The errors `DocumentService.process_document` can raise:
`DocumentNotFoundError` and `DocumentProcessingError`
(`app/services/document_service.py`). -/
inductive DocServiceError where
  | notFound (msg : String)
  | processing (msg : String)
deriving DecidableEq, Repr

/-- `DocumentService.get_document` (`app/services/document_service.py`):
the `user_docs` row with the given id AND owner, if any (the method raises
`DocumentNotFoundError` otherwise, handled at the call site in the model). -/
def DocumentService.get_document (registry : List UserDoc)
    (document_id user_id : String) : Option UserDoc :=
  (registry.filter fun d => d.id = document_id ∧ d.user_id = user_id).head?

/-- `DocumentService.process_document` (`app/services/document_service.py`).
External steps are abstract parameters: `fetch` models
`DocumentProcessor.process_document_from_url` (downloading + extraction,
failing with a `FetchError`), `split` the LangChain splitter inside
`TextChunker.chunk_text_raw`, and `embed` the remote
`EmbeddingService.generate_embeddings` call, whose failure — like a
missing file URL or an insert-length mismatch — lands in the generic
`except Exception` handler. Returns the result (or raised error) together
with the ordered status updates performed. -/
def DocumentService.process_document (registry : List UserDoc)
    (fetch : String → Except FetchError ExtractedDocument)
    (split : String → List String)
    (embed : List String → Except String (List (List Rat)))
    (document_id user_id : String) :
    Except DocServiceError ProcessingResult × List StatusUpdate :=
  match DocumentService.get_document registry document_id user_id with
  | none =>
    (.error (.notFound ("Document " ++ document_id ++ " not found for user "
      ++ user_id)), [])
  | some document =>
    let updates := [(document_id, DocumentStatus.PROCESSING,
      (none : Option String))]
    match document.file_url with
    | none =>
      let msg := "Document has no file URL"
      (.error (.processing ("Failed to process document: " ++ msg)),
       updates ++ [(document_id, .FAILED, some ("Unexpected error: " ++ msg))])
    | some file_url =>
      match fetch file_url with
      | .error e =>
        (.ok { document_id := document_id
               status := .FAILED
               chunks_created := 0
               error_message := some e.message },
         updates ++ [(document_id, .FAILED, some e.message)])
      | .ok extracted =>
        let chunks := TextChunker.chunk_text_raw split extracted.content
        if chunks.isEmpty then
          (.ok { document_id := document_id
                 status := .READY
                 chunks_created := 0 },
           updates ++ [(document_id, .READY, none)])
        else
          match embed chunks with
          | .error msg =>
            (.error (.processing ("Failed to process document: " ++ msg)),
             updates ++
               [(document_id, .FAILED, some ("Unexpected error: " ++ msg))])
          | .ok embeddings =>
            let metadata : Metadata :=
              [("document_type", .str extracted.document_type.value),
               ("page_count", match extracted.page_count with
                 | some n => .num n
                 | none => .null)]
            match SupabaseVectorStore.add_embeddings document_id user_id
                chunks embeddings metadata with
            | .error msg =>
              (.error (.processing ("Failed to process document: " ++ msg)),
               updates ++
                 [(document_id, .FAILED, some ("Unexpected error: " ++ msg))])
            | .ok _ =>
              (.ok { document_id := document_id
                     status := .READY
                     chunks_created := chunks.length },
               updates ++ [(document_id, .READY, none)])

/-- C8: for every input text that is empty or consists only of whitespace,
the chunker's split operation (`TextChunker.chunk_text`, and its raw
variant `chunk_text_raw`) returns an empty sequence of chunks and does not
raise an error, whatever the underlying splitter does. -/
theorem chunk_text_empty_or_whitespace (split : String → List String)
    (text : String) (h : text.toList.all pyIsSpace = true) :
    TextChunker.chunk_text split text = [] ∧
      TextChunker.chunk_text_raw split text = [] := by
  have hall : ∀ c ∈ text.toList, pyIsSpace c := by
    simpa [List.all_eq_true] using h
  have hdrop : text.data.dropWhile pyIsSpace = [] :=
    List.dropWhile_eq_nil_iff.mpr hall
  have hstrip : pyStrip text = "" := by
    simp [pyStrip, hdrop]
  constructor <;>
    simp [TextChunker.chunk_text, TextChunker.chunk_text_raw, hstrip,
      String.isEmpty]

/-- C8 witness: the whitespace-only text `"  \t\n "` yields no chunks. -/
theorem chunk_text_empty_or_whitespace_witness :
    TextChunker.chunk_text (fun s => [s]) "  \t\n " = [] ∧
      TextChunker.chunk_text_raw (fun s => [s]) "  \t\n " = [] :=
  chunk_text_empty_or_whitespace (fun s => [s]) "  \t\n " (by decide)

/-- C9: document type detection proceeds in the spec's order — URL
file-extension suffix first, then the `%PDF` magic-byte check, then a trial
UTF-8 decode, else `unknown`: the implementation agrees with the
spec-worded detector on every URL and content byte string. -/
theorem detect_document_type_follows_spec_order (url : String)
    (content : List Byte) :
    DocumentProcessor.detect_document_type url content =
      detectDocumentTypeSpec url content := by
  have hmagic : (content.take 4 = pdfMagic) ↔ pdfMagic.isPrefixOf content := by
    rw [List.isPrefixOf_iff_prefix, List.prefix_iff_eq_take]
    have : pdfMagic.length = 4 := by decide
    rw [this]
    exact ⟨fun h => h.symm, fun h => h.symm⟩
  unfold DocumentProcessor.detect_document_type detectDocumentTypeSpec
    extensionDocumentType
  by_cases h1 : url.toLower.endsWith ".pdf" <;>
    by_cases h2 : url.toLower.endsWith ".txt" <;>
      simp only [h1, h2, if_true, if_false, Bool.false_eq_true] <;>
        try rfl
  by_cases h3 : content.take 4 = pdfMagic
  · simp [h3, hmagic.mp h3]
  · have : ¬ pdfMagic.isPrefixOf content = true := fun hc => h3 (hmagic.mpr hc)
    simp [h3, this]

/-- C10: plain-text extraction always returns a decoded string — when the
strict UTF-8 decode fails it falls back to Latin-1, which succeeds on every
byte sequence, so the `TextExtractionError` branch of
`extract_text_from_txt` is unreachable. -/
theorem extract_text_from_txt_never_fails (content : List Byte) :
    (utf8DecodeChars content = none →
      DocumentProcessor.extract_text_from_txt content =
        .ok (latin1Decode content)) ∧
    ∃ s, DocumentProcessor.extract_text_from_txt content = .ok s := by
  unfold DocumentProcessor.extract_text_from_txt latin1DecodeOpt
  cases h : utf8DecodeChars content with
  | none => exact ⟨fun _ => rfl, latin1Decode content, rfl⟩
  | some cs => exact ⟨fun hc => by simp at hc, ⟨cs⟩, rfl⟩

/-- C10 witness: the byte `0xFF` is not valid UTF-8, and its extraction
succeeds via the Latin-1 fallback. -/
theorem extract_text_from_txt_never_fails_witness :
    DocumentProcessor.extract_text_from_txt [(0xFF : Fin 256)] =
      .ok (latin1Decode [(0xFF : Fin 256)]) :=
  (extract_text_from_txt_never_fails [(0xFF : Fin 256)]).1 (by decide)

/-- Every similarity-search result arises from a table record in the scope
of the searched document, carrying that record's content and metadata and
its similarity to the query. -/
theorem mem_similarity_search {sim : List Rat → List Rat → Rat}
    {table : List EmbeddingRecord} {q : List Rat} {document_id : String}
    {k : Nat} {res : SearchResult}
    (h : res ∈ SupabaseVectorStore.similarity_search sim table q
      document_id k) :
    ∃ r ∈ table, r.document_id = document_id ∧
      res = { content := r.content, metadata := r.metadata,
              similarity := sim q r.embedding } := by
  unfold SupabaseVectorStore.similarity_search match_document_embeddings at h
  simp only at h
  obtain ⟨r, hr, rfl⟩ := List.mem_map.mp h
  have hr₁ := List.mem_mergeSort.mp (List.mem_of_mem_take hr)
  have hr₂ := List.mem_filter.mp hr₁
  exact ⟨r, hr₂.1, by simpa using hr₂.2, rfl⟩

/-- A similarity search returns at most `k` results. -/
theorem similarity_search_length_le {sim : List Rat → List Rat → Rat}
    (table : List EmbeddingRecord) (q : List Rat) (document_id : String)
    (k : Nat) :
    (SupabaseVectorStore.similarity_search sim table q document_id k).length
      ≤ k := by
  unfold SupabaseVectorStore.similarity_search match_document_embeddings
  simp [List.length_take]

/-- Similarity-search results are ordered by descending similarity. -/
theorem similarity_search_sorted (sim : List Rat → List Rat → Rat)
    (table : List EmbeddingRecord) (q : List Rat) (document_id : String)
    (k : Nat) :
    (SupabaseVectorStore.similarity_search sim table q
      document_id k).Pairwise fun a b => b.similarity ≤ a.similarity := by
  unfold SupabaseVectorStore.similarity_search match_document_embeddings
  simp only
  rw [List.pairwise_map]
  apply List.Pairwise.sublist (List.take_sublist _ _)
  have hs := @List.sorted_mergeSort EmbeddingRecord
    (fun a b : EmbeddingRecord =>
      decide (sim q b.embedding ≤ sim q a.embedding))
    (fun a b c hab hbc => by
      simp only [decide_eq_true_eq] at *
      exact le_trans hbc hab)
    (fun a b => by
      simp only [Bool.or_eq_true, decide_eq_true_eq]
      exact le_total (sim q b.embedding) (sim q a.embedding))
    (table.filter fun r => r.document_id = document_id)
  exact hs.imp fun h => by simpa using h

/-- C1: a similarity search scoped to document A returns only records whose
metadata `document_id` is A — whatever higher-similarity vectors other
documents' records hold in the same table — with at most `k` results,
ordered by descending similarity. The hypothesis states the well-formedness
invariant of the table: each record's metadata `document_id` entry matches
its `document_id` column (as written by `add_embeddings`). -/
theorem similarity_search_document_isolation
    (sim : List Rat → List Rat → Rat) (table : List EmbeddingRecord)
    (q : List Rat) (A : String) (k : Nat)
    (hmeta : ∀ r ∈ table,
      metaLookup r.metadata "document_id" = some (.str r.document_id)) :
    (∀ res ∈ SupabaseVectorStore.similarity_search sim table q A k,
        metaLookup res.metadata "document_id" = some (.str A)) ∧
    (SupabaseVectorStore.similarity_search sim table q A k).length ≤ k ∧
    (SupabaseVectorStore.similarity_search sim table q A k).Pairwise
      (fun a b => b.similarity ≤ a.similarity) := by
  refine ⟨?_, similarity_search_length_le table q A k,
    similarity_search_sorted sim table q A k⟩
  intro res hres
  obtain ⟨r, hr, hdoc, rfl⟩ := mem_similarity_search hres
  simpa [hdoc] using hmeta r hr

/-- C1 witness: a two-document table in which document B's vector scores
higher than document A's against the query, yet the search scoped to A is
isolated to A's record. -/
theorem similarity_search_document_isolation_witness :
    (∀ res ∈ SupabaseVectorStore.similarity_search
        (fun _ e => e.headD 0)
        [{ document_id := "A", user_id := "U", content := "a",
           embedding := [1],
           metadata := [("document_id", .str "A")] },
         { document_id := "B", user_id := "U", content := "b",
           embedding := [2],
           metadata := [("document_id", .str "B")] }] [0] "A" 2,
        metaLookup res.metadata "document_id" = some (.str "A")) ∧
    (SupabaseVectorStore.similarity_search (fun _ e => e.headD 0)
      [{ document_id := "A", user_id := "U", content := "a",
         embedding := [1],
         metadata := [("document_id", .str "A")] },
       { document_id := "B", user_id := "U", content := "b",
         embedding := [2],
         metadata := [("document_id", .str "B")] }] [0] "A" 2).length ≤ 2 ∧
    (SupabaseVectorStore.similarity_search (fun _ e => e.headD 0)
      [{ document_id := "A", user_id := "U", content := "a",
         embedding := [1],
         metadata := [("document_id", .str "A")] },
       { document_id := "B", user_id := "U", content := "b",
         embedding := [2],
         metadata := [("document_id", .str "B")] }] [0] "A" 2).Pairwise
      (fun a b => b.similarity ≤ a.similarity) :=
  similarity_search_document_isolation (fun _ e => e.headD 0)
    [{ document_id := "A", user_id := "U", content := "a",
       embedding := [1],
       metadata := [("document_id", .str "A")] },
     { document_id := "B", user_id := "U", content := "b",
       embedding := [2],
       metadata := [("document_id", .str "B")] }] [0] "A" 2 (by decide)

/-- C2: both retrievers keep exactly the search results whose similarity is
at least the fixed threshold `0.3` (inclusive boundary: `0.29` is below the
threshold, `0.30` meets it), preserve the descending-similarity order of
the kept results, and return an empty list — not an error — when nothing
clears the threshold. -/
theorem retrieve_relevance_threshold (embed : String → List Rat)
    (sim : List Rat → List Rat → Rat) (table : List EmbeddingRecord)
    (retrieval_k : Nat) (query document_id : String) (num_questions : Nat) :
    (∀ r, r ∈ RAGChain.retrieve embed sim table retrieval_k query
        document_id ↔
      r ∈ SupabaseVectorStore.similarity_search sim table (embed query)
          document_id retrieval_k ∧
        MIN_SIMILARITY_THRESHOLD ≤ r.similarity) ∧
    (RAGChain.retrieve embed sim table retrieval_k query
      document_id).Pairwise (fun a b => b.similarity ≤ a.similarity) ∧
    ((∀ r ∈ SupabaseVectorStore.similarity_search sim table (embed query)
        document_id retrieval_k, r.similarity < MIN_SIMILARITY_THRESHOLD) →
      RAGChain.retrieve embed sim table retrieval_k query document_id
        = []) ∧
    (∀ r, r ∈ MCQChain.retrieve embed sim table document_id num_questions ↔
      r ∈ SupabaseVectorStore.similarity_search sim table
          (embed "key concepts, facts, and important information")
          document_id (max MCQChain.RETRIEVAL_K (num_questions * 2)) ∧
        MIN_SIMILARITY_THRESHOLD ≤ r.similarity) ∧
    (MCQChain.retrieve embed sim table document_id
      num_questions).Pairwise (fun a b => b.similarity ≤ a.similarity) ∧
    ((∀ r ∈ SupabaseVectorStore.similarity_search sim table
        (embed "key concepts, facts, and important information")
        document_id (max MCQChain.RETRIEVAL_K (num_questions * 2)),
        r.similarity < MIN_SIMILARITY_THRESHOLD) →
      MCQChain.retrieve embed sim table document_id num_questions = []) ∧
    ¬ MIN_SIMILARITY_THRESHOLD ≤ (29 / 100 : Rat) ∧
    MIN_SIMILARITY_THRESHOLD ≤ (30 / 100 : Rat) := by
  refine ⟨?_, ?_, ?_, ?_, ?_, ?_, by norm_num [MIN_SIMILARITY_THRESHOLD],
    by norm_num [MIN_SIMILARITY_THRESHOLD]⟩
  · intro r
    simp [RAGChain.retrieve, List.mem_filter]
  · exact (similarity_search_sorted sim table (embed query) document_id
      retrieval_k).filter _
  · intro h
    apply List.filter_eq_nil_iff.mpr
    intro r hr
    simpa using not_le.mpr (h r hr)
  · intro r
    simp [MCQChain.retrieve, List.mem_filter]
  · exact (similarity_search_sorted sim table
      (embed "key concepts, facts, and important information") document_id
      (max MCQChain.RETRIEVAL_K (num_questions * 2))).filter _
  · intro h
    apply List.filter_eq_nil_iff.mpr
    intro r hr
    simpa using not_le.mpr (h r hr)

/-- C2 witness: with a one-record table whose similarity to the query is
`0.29`, nothing clears the threshold and both retrievers return `[]`. -/
theorem retrieve_relevance_threshold_witness :
    RAGChain.retrieve (fun _ => [0]) (fun _ _ => 29 / 100)
      [{ document_id := "A", user_id := "U", content := "a",
         embedding := [1], metadata := [] }] 4 "q" "A" = [] ∧
    MCQChain.retrieve (fun _ => [0]) (fun _ _ => 29 / 100)
      [{ document_id := "A", user_id := "U", content := "a",
         embedding := [1], metadata := [] }] "A" 5 = [] := by
  have h := retrieve_relevance_threshold (fun _ => [0]) (fun _ _ => 29 / 100)
    [{ document_id := "A", user_id := "U", content := "a",
       embedding := [1], metadata := [] }] 4 "q" "A" 5
  refine ⟨h.2.2.1 ?_, h.2.2.2.2.2.1 ?_⟩ <;>
  · intro r hr
    simp [SupabaseVectorStore.similarity_search,
      match_document_embeddings, MCQChain.RETRIEVAL_K] at hr
    simp [hr, MIN_SIMILARITY_THRESHOLD]
    norm_num

/-- C3: when retrieval returns an empty sequence, `RAGChain.invoke` returns
exactly the fixed no-context sentence, an empty source list and
`has_context = false`, and the generative model is not invoked on that path
(the invocation flag is `false`, and the outcome is the same for every
generative model `llm`). -/
theorem rag_invoke_no_context (embed : String → List Rat)
    (sim : List Rat → List Rat → Rat) (llm : String → String → String)
    (table : List EmbeddingRecord) (retrieval_k : Nat)
    (question document_id : String)
    (h : RAGChain.retrieve embed sim table retrieval_k question
      document_id = []) :
    RAGChain.invoke embed sim llm table retrieval_k question document_id =
      ({ answer := RAGChain.NO_CONTEXT_RESPONSE
         sources := []
         has_context := false }, false) := by
  simp [RAGChain.invoke, h]

/-- C3 witness: on an empty table retrieval is empty and the no-context
response is produced without invoking the model. -/
theorem rag_invoke_no_context_witness :
    RAGChain.invoke (fun _ => [0]) (fun _ _ => 1) (fun _ _ => "llm answer")
      [] 4 "q" "A" =
      ({ answer := RAGChain.NO_CONTEXT_RESPONSE
         sources := []
         has_context := false }, false) :=
  rag_invoke_no_context (fun _ => [0]) (fun _ _ => 1) (fun _ _ => "llm answer")
    [] 4 "q" "A" (by
      simp [RAGChain.retrieve, SupabaseVectorStore.similarity_search,
        match_document_embeddings])

/-- C4: for a document D owned by U1, an answer or quiz request from a
different user U2 fails with the authorization (Unauthorized) error kind —
not the not-found kind — while a request naming a document absent from the
registry fails with the not-found kind; in each failure case the RAG / MCQ
chain is not invoked (no retrieval or generation work, flag `false`). -/
theorem service_ownership_gate (registry : List UserDoc)
    (embed : String → List Rat) (sim : List Rat → List Rat → Rat)
    (llm : String → String → String)
    (llmq : String → Nat → DifficultyLevel → LlmQuizOutput)
    (table : List EmbeddingRecord) (retrieval_k : Nat)
    (doc : UserDoc) (U1 U2 D message : String) (num_questions : Nat)
    (difficulty : DifficultyLevel) :
    ((registry.filter fun d => d.id = D).head? = some doc →
      doc.user_id = U1 → U2 ≠ U1 →
      ChatService.chat registry embed sim llm table retrieval_k U2 D
          message =
        (.error (.authorizationError ("User " ++ U2 ++
          " is not authorized to access document " ++ D)), false) ∧
      MCQService.generate_mcqs registry embed sim llmq table U2 D
          num_questions difficulty =
        (.error (.authorizationError ("User " ++ U2 ++
          " is not authorized to access document " ++ D)), false)) ∧
    ((registry.filter fun d => d.id = D) = [] →
      ChatService.chat registry embed sim llm table retrieval_k U2 D
          message =
        (.error (.documentNotFound ("Document " ++ D ++ " not found")),
          false) ∧
      MCQService.generate_mcqs registry embed sim llmq table U2 D
          num_questions difficulty =
        (.error (.documentNotFound ("Document " ++ D ++ " not found")),
          false)) := by
  constructor
  · intro hfind howner hne
    have hvalid : validate_document_ownership registry D U2 =
        .error (.authorizationError ("User " ++ U2 ++
          " is not authorized to access document " ++ D)) := by
      unfold validate_document_ownership
      cases hrows : registry.filter fun d => d.id = D with
      | nil => simp [hrows] at hfind
      | cons d rest =>
        simp [hrows] at hfind
        subst hfind
        have hne' : ¬ U1 = U2 := fun h => hne h.symm
        simp [howner, hne']
    constructor <;>
      simp [ChatService.chat, MCQService.generate_mcqs, hvalid]
  · intro hempty
    have hvalid : validate_document_ownership registry D U2 =
        .error (.documentNotFound ("Document " ++ D ++ " not found")) := by
      unfold validate_document_ownership
      simp [hempty]
    constructor <;>
      simp [ChatService.chat, MCQService.generate_mcqs, hvalid]

/-- C4 witness: a one-document registry (document "D" owned by "U1");
user "U2" gets the authorization error on "D" and the not-found error on
the absent document "E", with the chains never invoked. -/
theorem service_ownership_gate_witness :
    (ChatService.chat [{ id := "D", user_id := "U1", file_url := none }]
        (fun _ => [0]) (fun _ _ => 1) (fun _ _ => "a") [] 4 "U2" "D" "m" =
      (.error (.authorizationError
        "User U2 is not authorized to access document D"), false) ∧
     MCQService.generate_mcqs
        [{ id := "D", user_id := "U1", file_url := none }]
        (fun _ => [0]) (fun _ _ => 1) (fun _ _ _ => .noJson) [] "U2" "D" 5
        .medium =
      (.error (.authorizationError
        "User U2 is not authorized to access document D"), false)) ∧
    (ChatService.chat [{ id := "D", user_id := "U1", file_url := none }]
        (fun _ => [0]) (fun _ _ => 1) (fun _ _ => "a") [] 4 "U2" "E" "m" =
      (.error (.documentNotFound "Document E not found"), false) ∧
     MCQService.generate_mcqs
        [{ id := "D", user_id := "U1", file_url := none }]
        (fun _ => [0]) (fun _ _ => 1) (fun _ _ _ => .noJson) [] "U2" "E" 5
        .medium =
      (.error (.documentNotFound "Document E not found"), false)) := by
  constructor
  · have h := (service_ownership_gate
      [{ id := "D", user_id := "U1", file_url := none }]
      (fun _ => [0]) (fun _ _ => 1) (fun _ _ => "a") (fun _ _ _ => .noJson)
      [] 4 { id := "D", user_id := "U1", file_url := none }
      "U1" "U2" "D" "m" 5 .medium).1 (by decide) rfl (by decide)
    exact h
  · have h := (service_ownership_gate
      [{ id := "D", user_id := "U1", file_url := none }]
      (fun _ => [0]) (fun _ _ => 1) (fun _ _ => "a") (fun _ _ _ => .noJson)
      [] 4 { id := "D", user_id := "U1", file_url := none }
      "U1" "U2" "E" "m" 5 .medium).2 (by decide)
    exact h

/-- C5: a candidate question missing one of the four required fields, or
with a number of options different from 4, or with a correct-answer index
outside `[0, 3]`, is silently dropped (never partially constructed) while
the remaining candidates are still processed; a parsed output whose
candidates all drop out parses to an empty question list, and the service
then reports a successful outcome with `generated_count = 0`. -/
theorem mcq_malformed_candidates_dropped :
    (∀ c : RawCandidate,
      (c.question = none ∨ c.options = none ∨
        c.correct_answer_index = none ∨ c.explanation = none ∨
        (∀ opts, c.options = some opts → opts.length ≠ 4) ∨
        (∀ i, c.correct_answer_index = some i → ¬(0 ≤ i ∧ i ≤ 3))) →
      MCQChain.validate_candidate c = none) ∧
    (∀ (xs ys : List RawCandidate) (c : RawCandidate),
      MCQChain.validate_candidate c = none →
      MCQChain.parse_llm_output (.questions (xs ++ c :: ys)) =
        MCQChain.parse_llm_output (.questions (xs ++ ys))) ∧
    (∀ qs : List RawCandidate,
      qs.filterMap MCQChain.validate_candidate = [] →
      MCQChain.parse_llm_output (.questions qs) = .ok []) ∧
    (∀ (registry : List UserDoc) (embed : String → List Rat)
      (sim : List Rat → List Rat → Rat)
      (llmq : String → Nat → DifficultyLevel → LlmQuizOutput)
      (table : List EmbeddingRecord) (doc : UserDoc) (U D : String)
      (n : Nat) (diff : DifficultyLevel) (qs : List RawCandidate),
      (registry.filter fun d => d.id = D).head? = some doc →
      doc.user_id = U →
      MCQChain.retrieve embed sim table D n ≠ [] →
      llmq (MCQChain.format_context (MCQChain.retrieve embed sim table D n))
          n diff = .questions qs →
      qs.filterMap MCQChain.validate_candidate = [] →
      MCQService.generate_mcqs registry embed sim llmq table U D n diff =
        (.ok { questions := [], document_id := D, difficulty := diff.value,
               generated_count := 0 }, true)) := by
  refine ⟨?_, ?_, ?_, ?_⟩
  · intro c hc
    obtain ⟨oq, oo, oi, oe⟩ := c
    cases oq with
    | none => rfl
    | some q =>
      cases oo with
      | none => rfl
      | some opts =>
        cases oi with
        | none => rfl
        | some i =>
          cases oe with
          | none => rfl
          | some ex =>
            rcases hc with h | h | h | h | h | h
            · exact absurd h (by simp)
            · exact absurd h (by simp)
            · exact absurd h (by simp)
            · exact absurd h (by simp)
            · have hlen := h opts rfl
              simp [MCQChain.validate_candidate, hlen]
            · have hidx := h i rfl
              by_cases hlen : opts.length = 4
              · simp [MCQChain.validate_candidate, hlen, hidx]
              · simp [MCQChain.validate_candidate, hlen]
  · intro xs ys c hc
    simp [MCQChain.parse_llm_output, List.filterMap_append,
      List.filterMap_cons, hc]
  · intro qs hqs
    simp [MCQChain.parse_llm_output, hqs]
  · intro registry embed sim llmq table doc U D n diff qs hfind howner
      hne hllm hdrop
    have hvalid : validate_document_ownership registry D U = .ok doc := by
      unfold validate_document_ownership
      cases hrows : registry.filter fun d => d.id = D with
      | nil => simp [hrows] at hfind
      | cons d rest =>
        simp [hrows] at hfind
        subst hfind
        simp [howner]
    simp [MCQService.generate_mcqs, hvalid, MCQChain.invoke,
      List.isEmpty_iff, hne, hllm, MCQChain.parse_llm_output, hdrop]

/-- C5 witness: a candidate with only 3 options and a candidate with
correct-answer index 4 are both dropped, and a quiz request whose model
output contains only such candidates succeeds with zero questions. -/
theorem mcq_malformed_candidates_dropped_witness :
    MCQChain.validate_candidate
      { question := some "q?", options := some ["a", "b", "c"],
        correct_answer_index := some 0, explanation := some "e" } = none ∧
    MCQService.generate_mcqs
      [{ id := "D", user_id := "U", file_url := none }] (fun _ => [0])
      (fun _ _ => 1)
      (fun _ _ _ => .questions
        [{ question := some "q?", options := some ["a", "b", "c"],
           correct_answer_index := some 0, explanation := some "e" },
         { question := some "q?", options := some ["a", "b", "c", "d"],
           correct_answer_index := some 4, explanation := some "e" }])
      [{ document_id := "D", user_id := "U", content := "text",
         embedding := [1], metadata := [] }] "U" "D" 5 .medium =
      (.ok { questions := [], document_id := "D", difficulty := "medium",
             generated_count := 0 }, true) := by
  constructor
  · exact mcq_malformed_candidates_dropped.1
      { question := some "q?", options := some ["a", "b", "c"],
        correct_answer_index := some 0, explanation := some "e" }
      (Or.inr (Or.inr (Or.inr (Or.inr (Or.inl (by
        intro opts h
        injection h with h
        subst h
        decide))))))
  · exact mcq_malformed_candidates_dropped.2.2.2
      [{ id := "D", user_id := "U", file_url := none }] (fun _ => [0])
      (fun _ _ => 1)
      (fun _ _ _ => .questions
        [{ question := some "q?", options := some ["a", "b", "c"],
           correct_answer_index := some 0, explanation := some "e" },
         { question := some "q?", options := some ["a", "b", "c", "d"],
           correct_answer_index := some 4, explanation := some "e" }])
      [{ document_id := "D", user_id := "U", content := "text",
         embedding := [1], metadata := [] }]
      { id := "D", user_id := "U", file_url := none } "U" "D" 5 .medium
      [{ question := some "q?", options := some ["a", "b", "c"],
         correct_answer_index := some 0, explanation := some "e" },
       { question := some "q?", options := some ["a", "b", "c", "d"],
         correct_answer_index := some 4, explanation := some "e" }]
      (by decide) rfl
      (by
        simp [MCQChain.retrieve, SupabaseVectorStore.similarity_search,
          match_document_embeddings, MCQChain.RETRIEVAL_K,
          MIN_SIMILARITY_THRESHOLD]
        norm_num)
      rfl (by decide)

/-- Inserting a binding for a different key leaves a lookup unchanged. -/
theorem metaLookup_dictInsert_ne (d : Metadata) (k k' : String)
    (v : MetaValue) (h : k' ≠ k) :
    metaLookup (dictInsert d k' v) k = metaLookup d k := by
  induction d with
  | nil => simp [dictInsert, metaLookup, h]
  | cons kv rest ih =>
    obtain ⟨a, b⟩ := kv
    by_cases ha : a = k'
    · subst ha
      simp [dictInsert, metaLookup, h]
    · simp [dictInsert, metaLookup, ha, ih]

/-- Merging a dict whose keys avoid `k` leaves the lookup of `k`
unchanged. -/
theorem metaLookup_dictMerge_of_not_key (extra : Metadata) (base : Metadata)
    (k : String) (h : ∀ kv ∈ extra, kv.1 ≠ k) :
    metaLookup (dictMerge base extra) k = metaLookup base k := by
  induction extra generalizing base with
  | nil => rfl
  | cons kv rest ih =>
    have hstep : dictMerge base (kv :: rest) =
        dictMerge (dictInsert base kv.1 kv.2) rest := rfl
    rw [hstep, ih _ fun kv' h' => h kv' (List.mem_cons_of_mem _ h'),
      metaLookup_dictInsert_ne _ _ _ _ (h kv (List.mem_cons_self _ _))]

/-- C6 counterexample: the claim that supplied metadata keys do not
override the mandatory fields is false — the Python dict literal merges
`**metadata` after the mandatory keys, so a supplied `"document_id"` key
replaces the mandatory one. Inserting one chunk for document `"docA"` with
supplied metadata `{"document_id": "docB"}` stores metadata whose
`document_id` entry is `"docB"`, not `"docA"`. -/
theorem add_embeddings_supplied_key_overrides :
    SupabaseVectorStore.add_embeddings "docA" "userA" ["c"] [[1]]
        [("document_id", .str "docB")] =
      .ok [{ document_id := "docA", user_id := "userA", content := "c",
             embedding := [1],
             metadata := [("chunk_index", .num 0),
                          ("document_id", .str "docB"),
                          ("user_id", .str "userA")] }] ∧
    metaLookup [("chunk_index", MetaValue.num 0),
                ("document_id", MetaValue.str "docB"),
                ("user_id", MetaValue.str "userA")] "document_id" =
      some (.str "docB") ∧
    some (MetaValue.str "docB") ≠ some (MetaValue.str "docA") := by
  refine ⟨?_, rfl, by decide⟩
  rfl

/-- C6 (amended): each inserted record's metadata carries its chunk index,
document identifier and owner identifier, with the supplied metadata merged
in AFTER them — so a supplied key equal to a mandatory field overrides it,
and the mandatory fields are guaranteed only when the supplied keys avoid
`chunk_index` / `document_id` / `user_id`; the insert fails with the
length-mismatch `ValueError` when the chunk and vector counts differ. -/
theorem add_embeddings_metadata_contract (document_id user_id : String)
    (chunks : List String) (embeddings : List (List Rat))
    (metadata : Metadata)
    (hkeys : ∀ kv ∈ metadata, kv.1 ≠ "chunk_index" ∧
      kv.1 ≠ "document_id" ∧ kv.1 ≠ "user_id") :
    (chunks.length ≠ embeddings.length →
      SupabaseVectorStore.add_embeddings document_id user_id chunks
          embeddings metadata =
        .error "Chunks and embeddings must have same length.") ∧
    (chunks.length = embeddings.length →
      ∃ recs, SupabaseVectorStore.add_embeddings document_id user_id chunks
          embeddings metadata = .ok recs ∧
        recs.length = chunks.length ∧
        ∀ i (hi : i < recs.length),
          metaLookup (recs.get ⟨i, hi⟩).metadata "chunk_index" =
            some (.num i) ∧
          metaLookup (recs.get ⟨i, hi⟩).metadata "document_id" =
            some (.str document_id) ∧
          metaLookup (recs.get ⟨i, hi⟩).metadata "user_id" =
            some (.str user_id)) := by
  constructor
  · intro hne
    simp [SupabaseVectorStore.add_embeddings, hne]
  · intro heq
    refine ⟨(chunks.zip embeddings).enum.map fun (i, chunk, embedding) =>
        ({ document_id := document_id
           user_id := user_id
           content := chunk
           embedding := embedding
           metadata := dictMerge
             [("chunk_index", .num i), ("document_id", .str document_id),
              ("user_id", .str user_id)] metadata } : EmbeddingRecord),
      ?_, ?_, ?_⟩
    · simp [SupabaseVectorStore.add_embeddings, heq]
    · simp [List.length_zip, heq]
    · intro i hi
      simp only [List.length_map, List.enum_length] at hi
      have hget : ((chunks.zip embeddings).enum.map fun (i, chunk, embedding)
          => ({ document_id := document_id
                user_id := user_id
                content := chunk
                embedding := embedding
                metadata := dictMerge
                  [("chunk_index", .num i), ("document_id", .str document_id),
                   ("user_id", .str user_id)] metadata }
            : EmbeddingRecord)).get ⟨i, by simpa using hi⟩ =
          ({ document_id := document_id
             user_id := user_id
             content := ((chunks.zip embeddings).get ⟨i, by simpa using hi⟩).1
             embedding := ((chunks.zip embeddings).get
               ⟨i, by simpa using hi⟩).2
             metadata := dictMerge
               [("chunk_index", .num i), ("document_id", .str document_id),
                ("user_id", .str user_id)] metadata }
            : EmbeddingRecord) := by
        simp [List.get_eq_getElem, List.getElem_map, List.getElem_enum]
      rw [hget]
      refine ⟨?_, ?_, ?_⟩ <;>
      · rw [metaLookup_dictMerge_of_not_key _ _ _
          (fun kv hkv => ?_)]
        · simp [metaLookup]
        · first
          | exact (hkeys kv hkv).1
          | exact (hkeys kv hkv).2.1
          | exact (hkeys kv hkv).2.2

/-- C6 witness: inserting two chunks with non-colliding supplied metadata
preserves the mandatory fields of every record, and a mismatched insert
fails. -/
theorem add_embeddings_metadata_contract_witness :
    (∃ recs, SupabaseVectorStore.add_embeddings "docA" "userA" ["a", "b"]
        [[1], [2]] [("document_type", .str "pdf")] = .ok recs ∧
      recs.length = (["a", "b"] : List String).length ∧
      ∀ i (hi : i < recs.length),
        metaLookup (recs.get ⟨i, hi⟩).metadata "chunk_index" =
          some (.num i) ∧
        metaLookup (recs.get ⟨i, hi⟩).metadata "document_id" =
          some (.str "docA") ∧
        metaLookup (recs.get ⟨i, hi⟩).metadata "user_id" =
          some (.str "userA")) ∧
    SupabaseVectorStore.add_embeddings "docA" "userA" ["a", "b"] [[1]]
        [("document_type", .str "pdf")] =
      .error "Chunks and embeddings must have same length." := by
  constructor
  · exact (add_embeddings_metadata_contract "docA" "userA" ["a", "b"]
      [[1], [2]] [("document_type", .str "pdf")] (by decide)).2 rfl
  · exact (add_embeddings_metadata_contract "docA" "userA" ["a", "b"]
      [[1]] [("document_type", .str "pdf")] (by decide)).1 (by decide)

/-- C7: during processing of a registered document with a file URL, a
download or extraction error sets the document status to `failed` with the
captured error message and returns a structured `ProcessingResult` to the
caller (no exception), while any other error — here a failing embedding
call — also records a `failed` status (with the "Unexpected error: "
message) and is then re-raised as a `DocumentProcessingError`. -/
theorem process_document_failure_handling (registry : List UserDoc)
    (split : String → List String) (D U url : String) (doc : UserDoc)
    (hdoc : DocumentService.get_document registry D U = some doc)
    (hurl : doc.file_url = some url) :
    (∀ (fetch : String → Except FetchError ExtractedDocument)
      (embed : List String → Except String (List (List Rat))) (m : String),
      fetch url = .error (.download m) →
      DocumentService.process_document registry fetch split embed D U =
        (.ok { document_id := D, status := .FAILED, chunks_created := 0,
               error_message := some m },
         [(D, .PROCESSING, none), (D, .FAILED, some m)])) ∧
    (∀ (fetch : String → Except FetchError ExtractedDocument)
      (embed : List String → Except String (List (List Rat))) (m : String),
      fetch url = .error (.extraction m) →
      DocumentService.process_document registry fetch split embed D U =
        (.ok { document_id := D, status := .FAILED, chunks_created := 0,
               error_message := some m },
         [(D, .PROCESSING, none), (D, .FAILED, some m)])) ∧
    (∀ (fetch : String → Except FetchError ExtractedDocument)
      (embed : List String → Except String (List (List Rat)))
      (extracted : ExtractedDocument) (m : String),
      fetch url = .ok extracted →
      TextChunker.chunk_text_raw split extracted.content ≠ [] →
      embed (TextChunker.chunk_text_raw split extracted.content) =
        .error m →
      DocumentService.process_document registry fetch split embed D U =
        (.error (.processing ("Failed to process document: " ++ m)),
         [(D, .PROCESSING, none),
          (D, .FAILED, some ("Unexpected error: " ++ m))])) := by
  refine ⟨?_, ?_, ?_⟩
  · intro fetch embed m hfetch
    simp [DocumentService.process_document, hdoc, hurl, hfetch,
      FetchError.message]
  · intro fetch embed m hfetch
    simp [DocumentService.process_document, hdoc, hurl, hfetch,
      FetchError.message]
  · intro fetch embed extracted m hfetch hchunks hembed
    simp [DocumentService.process_document, hdoc, hurl, hfetch,
      List.isEmpty_iff, hchunks, hembed]

/-- C7 witness: with a one-document registry, a failing download yields a
structured failed result, a failing extraction likewise, and a failing
embedding call records the unexpected failure and re-raises. -/
theorem process_document_failure_handling_witness :
    (DocumentService.process_document
        [{ id := "D", user_id := "U", file_url := some "u" }]
        (fun _ => .error (.download "dl boom")) (fun s => [s])
        (fun _ => .ok []) "D" "U" =
      (.ok { document_id := "D", status := .FAILED, chunks_created := 0,
             error_message := some "dl boom" },
       [("D", .PROCESSING, none), ("D", .FAILED, some "dl boom")])) ∧
    (DocumentService.process_document
        [{ id := "D", user_id := "U", file_url := some "u" }]
        (fun _ => .error (.extraction "ex boom")) (fun s => [s])
        (fun _ => .ok []) "D" "U" =
      (.ok { document_id := "D", status := .FAILED, chunks_created := 0,
             error_message := some "ex boom" },
       [("D", .PROCESSING, none), ("D", .FAILED, some "ex boom")])) ∧
    (DocumentService.process_document
        [{ id := "D", user_id := "U", file_url := some "u" }]
        (fun _ => .ok { document_id := "D", content := "text",
                        document_type := .TXT })
        (fun s => [s]) (fun _ => .error "embed boom") "D" "U" =
      (.error (.processing "Failed to process document: embed boom"),
       [("D", .PROCESSING, none),
        ("D", .FAILED, some "Unexpected error: embed boom")])) := by
  have h := process_document_failure_handling
    [{ id := "D", user_id := "U", file_url := some "u" }] (fun s => [s])
    "D" "U" "u" { id := "D", user_id := "U", file_url := some "u" }
    (by decide) rfl
  exact ⟨h.1 _ (fun _ => .ok []) "dl boom" rfl,
    h.2.1 _ (fun _ => .ok []) "ex boom" rfl,
    h.2.2 _ (fun _ => .error "embed boom")
      { document_id := "D", content := "text", document_type := .TXT }
      "embed boom" rfl (by decide) rfl⟩
